import Mathlib

/-!
Verification of the response-splitting / document-assembly logic of the
claude-transcribe repository (batch_pdf_processor_claude.py and
test_single_claude.py), via a shallow embedding in Lean 4.

Strings are modelled as lists of characters.  Python string primitives
(str.find, slicing, str.strip) are reproduced below with their Python
semantics on that representation.  External library calls that the
repository delegates to (yaml.safe_load, datetime.now) are passed in as
explicit parameters of the embedded functions, so theorems quantify over
their outcomes.
-/

namespace ClaudeTranscribe

/-- Shorthand: the character-list form of a string literal. -/
def str (s : String) : List Char := s.toList

/-- Prefix test used by the embedded Python string primitives:
`beginsWith p l` is true when `p` is an initial segment of `l`. -/
def beginsWith : List Char → List Char → Bool
  | [], _ => true
  | _ :: _, [] => false
  | c :: p, d :: l => c == d && beginsWith p l

/-- Auxiliary scan for `pyFind`: the index (counting from `i`) of the first
position in `s` where `pat` occurs, or `-1`. -/
def findAux (pat : List Char) : List Char → Nat → Int
  | [], i => if pat.isEmpty then (i : Int) else -1
  | c :: rest, i =>
    if beginsWith pat (c :: rest) then (i : Int) else findAux pat rest (i + 1)

/-- Python `s.find(pat, start)`: index of the first occurrence of `pat` in
`s` at a position at or beyond `start`, else `-1`.  A negative `start`
counts from the end of `s` and is clamped at 0, as in Python. -/
def pyFind (s pat : List Char) (start : Int) : Int :=
  let st : Nat := if start < 0 then ((s.length : Int) + start).toNat else start.toNat
  if s.length < st then -1 else findAux pat (s.drop st) st

/-- Python slice-index normalisation: negative indices count from the end
(clamped at 0), nonnegative ones are clamped at the length. -/
def pyIndex (len : Nat) (i : Int) : Nat :=
  if i < 0 then ((len : Int) + i).toNat else min i.toNat len

/-- Python `s[a:b]`. -/
def pySlice (s : List Char) (a b : Int) : List Char :=
  let lo := pyIndex s.length a
  let hi := pyIndex s.length b
  (s.drop lo).take (hi - lo)

/-- Python `s[a:]`. -/
def pySliceFrom (s : List Char) (a : Int) : List Char :=
  s.drop (pyIndex s.length a)

/-- The whitespace set stripped by Python `str.strip()` (ASCII part). -/
def isPySpace (c : Char) : Bool :=
  c == ' ' || c == '\t' || c == '\n' || c == '\r' ||
  c == Char.ofNat 11 || c == Char.ofNat 12

/-- Python `s.strip()`: drop leading and trailing whitespace. -/
def pyStrip (s : List Char) : List Char :=
  ((s.dropWhile isPySpace).reverse.dropWhile isPySpace).reverse

/-- A decoded YAML value as used by the document renderer: either a scalar
string or a sequence of strings (the shapes the prompt requests and the
renderer consumes). -/
inductive MetaValue where
  | s (v : List Char)
  | seq (v : List (List Char))
deriving DecidableEq

/-- The decoded metadata mapping produced by `yaml.safe_load`, modelled as
an association list; the empty mapping is `[]`. -/
abbrev Metadata := List (List Char × MetaValue)

/-- Python `dict.get(k, d)` on the metadata mapping. -/
def pyGet (m : Metadata) (k : List Char) (d : MetaValue) : MetaValue :=
  match m with
  | [] => d
  | (k', v) :: rest => if k' = k then v else pyGet rest k d

/-- Python truthiness of a decoded value: a string or list is truthy when
nonempty. -/
def MetaValue.truthy : MetaValue → Bool
  | .s v => !v.isEmpty
  | .seq v => !v.isEmpty

/-- Iterating a decoded value as Python does: a list yields its elements, a
string yields its characters one by one. -/
def pyIter : MetaValue → List (List Char)
  | .s v => v.map (fun c => [c])
  | .seq xs => xs

/-- repr of one character inside a Python string repr (escaping backslash,
quote and control characters; other characters pass through). -/
def pyEscapeChar (c : Char) : List Char :=
  if c = '\\' then ['\\', '\\']
  else if c = Char.ofNat 39 then ['\\', Char.ofNat 39]
  else if c = '\n' then ['\\', 'n']
  else if c = '\r' then ['\\', 'r']
  else if c = '\t' then ['\\', 't']
  else [c]

/-- Python `repr` of a string, in the single-quote style (the quote-style
switch Python applies when the string itself holds a single quote is not
modelled; no theorem below inspects this rendering). -/
def pyReprStr (s : List Char) : List Char :=
  Char.ofNat 39 :: (s.map pyEscapeChar).flatten ++ [Char.ofNat 39]

/-- Python `str()` of a decoded value as interpolated by an f-string: a
string interpolates as itself, a list as its repr. -/
def pyStrV : MetaValue → List Char
  | .s v => v
  | .seq xs => str "[" ++ List.intercalate (str ", ") (xs.map pyReprStr) ++ str "]"

/-- The frontmatter block of create_obsidian_document
(batch_pdf_processor_claude.py lines 332-391): the fixed key lines, the
conditional scalar values, one indented line per sequence element, the fixed
tag list and the generation date (`datetime.now` is passed in as `added`). -/
def frontmatter_lines (metadata : Metadata) (added : List Char) : List (List Char) :=
  let title := pyGet metadata (str "title") (.s [])
  let creator := pyGet metadata (str "creator") (.s [])
  let publication := pyGet metadata (str "publication") (.s [])
  let source := pyGet metadata (str "source") (.s [])
  let date := pyGet metadata (str "date") (.s [])
  let people := pyGet metadata (str "people") (.seq [])
  let organization := pyGet metadata (str "organization") (.seq [])
  let locations := pyGet metadata (str "locations") (.seq [])
  let themes := pyGet metadata (str "themes") (.seq [])
  [str "---",
   str "title: " ++ pyStrV title,
   if creator.truthy then str "creator: " ++ pyStrV creator else str "creator:",
   if publication.truthy then str "publication: " ++ pyStrV publication
     else str "publication:",
   str "source: " ++ pyStrV source,
   if date.truthy then str "date: " ++ pyStrV date else str "date:",
   str "people:"]
  ++ (if people.truthy then (pyIter people).map (fun x => str "  - " ++ x) else [])
  ++ [str "organization:"]
  ++ (if organization.truthy then (pyIter organization).map (fun x => str "  - " ++ x)
      else [])
  ++ [str "locations:"]
  ++ (if locations.truthy then (pyIter locations).map (fun x => str "  - " ++ x)
      else [])
  ++ [str "themes:"]
  ++ (if themes.truthy then (pyIter themes).map (fun x => str "  - " ++ x) else [])
  ++ [str "tags:", str "  - to-do", str "  - source/primary",
      str "added: " ++ added, str "---\n"]

/-- create_obsidian_document (batch_pdf_processor_claude.py lines 316-406),
returning the text written to the output file; the output path itself does
not influence the content and is omitted. -/
def create_obsidian_document (metadata : Metadata) (transcription : List Char)
    (pdf_filename : List Char) (added : List Char) : List Char :=
  let overview := pyGet metadata (str "overview") (.s [])
  List.intercalate [Char.ofNat 10]
    [List.intercalate [Char.ofNat 10] (frontmatter_lines metadata added),
     str "## Overview\n",
     if overview.truthy then pyStrV overview ++ [Char.ofNat 10] else [Char.ofNat 10],
     str "## Images\n",
     str "![[" ++ pdf_filename ++ str "]]\n",
     str "## Notes\n\n",
     str "## Connections\n\n",
     str "## Transcription\n",
     transcription]

/-- Greedy in-order scan: every pattern in the first list must begin some
line of the second list, the matched lines occurring in the given order. -/
def scanKeys : List (List Char) → List (List Char) → Bool
  | [], _ => true
  | _ :: _, [] => false
  | p :: ps, l :: ls =>
    if beginsWith p l then scanKeys ps ls else scanKeys (p :: ps) ls

/-- The header keys the claim lists, with the plural `organizations`,
followed by the fixed tag lines and the generation-date key. -/
def claimedHeaderKeys : List (List Char) :=
  [str "title:", str "creator:", str "publication:", str "source:", str "date:",
   str "people:", str "organizations:", str "locations:", str "themes:",
   str "tags:", str "  - to-do", str "  - source/primary", str "added:"]

/-- The header keys the code actually emits: identical except that the
organization key is singular. -/
def emittedHeaderKeys : List (List Char) :=
  [str "title:", str "creator:", str "publication:", str "source:", str "date:",
   str "people:", str "organization:", str "locations:", str "themes:",
   str "tags:", str "  - to-do", str "  - source/primary", str "added:"]

/-- parse_claude_response (batch_pdf_processor_claude.py lines 285-314).
`yamlLoad` stands for the external `yaml.safe_load`: `.ok m` is a
successful decode to a mapping, `.error e` a raised `yaml.YAMLError`
(which the source catches, falling back to the empty mapping).  The
fence-absent fallback returns the whole input as the transcription. -/
def parse_claude_response (yamlLoad : List Char → Except (List Char) Metadata)
    (response_text : List Char) : Metadata × List Char :=
  let yaml_start := pyFind response_text (str "```yaml") 0
  let yaml_end := pyFind response_text (str "```") (yaml_start + 7)
  if yaml_start = -1 ∨ yaml_end = -1 then
    ([], response_text)
  else
    let yaml_content := pyStrip (pySlice response_text (yaml_start + 7) yaml_end)
    let metadata :=
      match yamlLoad yaml_content with
      | .ok m => m
      | .error _ => []
    (metadata, pyStrip (pySliceFrom response_text (yaml_end + 3)))

/-- A normalised POSIX path as pathlib sees it: an optional root anchor and
the list of path components.  `parts` of an absolute path begins with the
anchor string, exactly as in `PurePosixPath.parts`. -/
structure PyPath where
  absolute : Bool
  names : List (List Char)
deriving DecidableEq

/-- Python `Path.parts`. -/
def PyPath.parts (p : PyPath) : List (List Char) :=
  (if p.absolute then [str "/"] else []) ++ p.names

/-- Python `Path.parent`: drop the final component; the parent of a root or
empty path is itself. -/
def PyPath.parent (p : PyPath) : PyPath :=
  if p.names.isEmpty then p else ⟨p.absolute, p.names.dropLast⟩

/-- Python `str(Path)`: components joined with `/`, prefixed by the root
anchor when absolute; the empty relative path prints as `.`. -/
def PyPath.toString (p : PyPath) : List Char :=
  if p.absolute then str "/" ++ List.intercalate (str "/") p.names
  else if p.names.isEmpty then str "." else List.intercalate (str "/") p.names

/-- Python `Path.name`: the final component, or empty when there is none. -/
def PyPath.name (p : PyPath) : List Char :=
  p.names.getLast?.getD []

/-- Last index of character `c` in the list, or `-1` (Python `str.rfind`). -/
def rfindAux (c : Char) : List Char → Nat → Int → Int
  | [], _, acc => acc
  | d :: rest, i, acc => rfindAux c rest (i + 1) (if d == c then (i : Int) else acc)

/-- Python `s.rfind(c)` for a single character. -/
def rfindChar (s : List Char) (c : Char) : Int :=
  rfindAux c s 0 (-1)

/-- Python `Path.stem`: the final component with its last suffix removed;
the dot must be neither the first nor the last character of the name. -/
def PyPath.stem (p : PyPath) : List Char :=
  let name := p.name
  let i := rfindChar name '.'
  if 0 < i ∧ i < (name.length : Int) - 1 then name.take i.toNat else name

/-- parse_source_from_path (batch_pdf_processor_claude.py lines 98-125 and
test_single_claude.py lines 23-50): with at least five path parts, format
the parts at positions -2, -3, -4, -5 as `folder, box, collection, archive`;
otherwise fall back to `str(path.parent)`. -/
def parse_source_from_path (pdf_path : PyPath) : List Char :=
  let parts := pdf_path.parts
  if parts.length < 5 then pdf_path.parent.toString
  else
    let r := parts.reverse
    let folder := r.getD 1 []
    let box := r.getD 2 []
    let collection := r.getD 3 []
    let archive := r.getD 4 []
    folder ++ str ", " ++ box ++ str ", " ++ collection ++ str ", " ++ archive

/-- One element of a message content list: a text block carrying text, or a
block of some other type (skipped by the text extraction loop). -/
inductive ContentBlock where
  | text (t : List Char)
  | other (blockType : List Char)
deriving DecidableEq

/-- The per-item result of a batch: succeeded with a content list, errored
with an error type and message, or some other terminal type (canceled,
expired). -/
inductive ResultBody where
  | succeeded (content : List ContentBlock)
  | errored (errorType errorMessage : List Char)
  | other (resultType : List Char)
deriving DecidableEq

/-- One entry of the batch results list: the optional custom_id and the
result body. -/
structure BatchResult where
  custom_id : Option (List Char)
  result : ResultBody
deriving DecidableEq

/-- The observable outcome of process_batch_results: the two counters and
the list of written files as (name, content) pairs, in write order. -/
structure ProcessOutcome where
  succeeded : Nat
  failed : Nat
  files : List (List Char × List Char)
deriving DecidableEq

/-- The text-accumulation loop over content blocks
(batch_pdf_processor_claude.py lines 442-445). -/
def extractText (content : List ContentBlock) : List Char :=
  content.foldl
    (fun acc b =>
      match b with
      | .text t => acc ++ t
      | .other _ => acc)
    []

/-- The body of the per-result loop of process_batch_results
(batch_pdf_processor_claude.py lines 427-466), acting on the running
outcome.  A succeeded result with empty content counts as failed with no
file; a succeeded result with content is parsed and rendered into
`<custom_id>.md`; errored and other result types count as failed.  The
try/except around parsing and rendering is modelled by those functions
being total. -/
def processOne (yamlLoad : List Char → Except (List Char) Metadata)
    (added : List Char) (st : ProcessOutcome) (r : BatchResult) : ProcessOutcome :=
  let custom_id := r.custom_id.getD (str "unknown")
  match r.result with
  | .succeeded content =>
    match content with
    | [] => { st with failed := st.failed + 1 }
    | _ :: _ =>
      let response_text := extractText content
      let parsed := parse_claude_response yamlLoad response_text
      let doc := create_obsidian_document parsed.1 parsed.2
        (custom_id ++ str ".pdf") added
      { st with succeeded := st.succeeded + 1,
                files := st.files ++ [(custom_id ++ str ".md", doc)] }
  | .errored _ _ => { st with failed := st.failed + 1 }
  | .other _ => { st with failed := st.failed + 1 }

/-- process_batch_results (batch_pdf_processor_claude.py lines 408-470):
fold the per-result step over the results list, starting from zero counters
and no files. -/
def process_batch_results (yamlLoad : List Char → Except (List Char) Metadata)
    (added : List Char) (results : List BatchResult) : ProcessOutcome :=
  results.foldl (processOne yamlLoad added) ⟨0, 0, []⟩

/-- Pointwise combination of two outcomes: counters add, file lists append. -/
def ProcessOutcome.combine (a b : ProcessOutcome) : ProcessOutcome :=
  ⟨a.succeeded + b.succeeded, a.failed + b.failed, a.files ++ b.files⟩

/-- The base64 alphabet. -/
def b64Table : List Char :=
  str "ABCDEFGHIJKLMNOPQRSTUVWXYZabcdefghijklmnopqrstuvwxyz0123456789+/"

/-- The base64 digit for a 6-bit value. -/
def b64Char (n : Nat) : Char := b64Table.getD n 'A'

/-- Standard base64 of a byte sequence (`base64.standard_b64encode`): groups
of three bytes become four digits, with `=` padding for a short tail. -/
def base64Encode : List Nat → List Char
  | a :: b :: c :: rest =>
    b64Char (a / 4) :: b64Char (a % 4 * 16 + b / 16)
      :: b64Char (b % 16 * 4 + c / 64) :: b64Char (c % 64) :: base64Encode rest
  | [a, b] => [b64Char (a / 4), b64Char (a % 4 * 16 + b / 16),
               b64Char (b % 16 * 4), '=']
  | [a] => [b64Char (a / 4), b64Char (a % 4 * 16), '=', '=']
  | [] => []

/-- encode_pdf (batch_pdf_processor_claude.py lines 127-138): read the
file's bytes and base64-encode them.  The filesystem read is passed in as
`readFile`. -/
def encode_pdf (readFile : PyPath → List Nat) (pdf_path : PyPath) : List Char :=
  base64Encode (readFile pdf_path)

/-- The fixed system prompt (batch_pdf_processor_claude.py lines 35-53). -/
def system_prompt : List Char :=
  str "You are a precise historical document analyst. Your task is to:\n\n1. Extract metadata and create a brief overview of the document\n2. Transcribe the document EXACTLY as written, preserving spelling, punctuation, and formatting\n3. Extract entities (people, organizations, locations, themes) that are EXPLICITLY mentioned\n4. Never invent, infer, or hallucinate information not present in the source\n5. For multi-page documents, insert HTML comments to mark page breaks\n\nCRITICAL RULES:\n- Only include entities you can directly cite from the document\n- If uncertain about an entity, DO NOT include it\n- Preserve original spellings and phrasings\n- Mark unclear text as [illegible] rather than guessing\n- Do not modernize or correct historical spelling/grammar\n- Do not add interpretive commentary beyond the brief overview\n- For page breaks, insert: <!-- page 1 -->, <!-- page 2 -->, etc.\n- The overview should be 2-3 sentences summarizing the document\x27s content\n\nOutput format must be valid YAML that can be parsed programmatically."

/-- create_analysis_prompt (batch_pdf_processor_claude.py lines 55-96): the
fixed instruction template with the source label interpolated; the
file-path argument is accepted but, as in the source, not used. -/
def create_analysis_prompt (_file_path source : List Char) : List Char :=
  str "Analyze this historical document and provide:\n\n1. METADATA: Structured information in YAML format\n2. OVERVIEW: A brief 2-3 sentence summary of the document\n3. TRANSCRIPTION: Exact text from the document\n\nOutput ONLY valid YAML in this exact structure:\n\n```yaml\ntitle: \"Document title or first line if untitled\"\ncreator: \"[[Author Name]]\"  # Use wiki-link format if author identified, otherwise empty string\npublication: \"Publication name if present, otherwise empty string\"\nsource: \""
  ++ source
  ++ str "\"\ndate: \"Date in YYYY-MM-DD format if present, otherwise empty string\"\npeople:\n  - \"[[Person Name]]\"  # Use wiki-link format, only if explicitly mentioned\norganization:\n  - \"[[Organization Name]]\"  # Use wiki-link format, only if explicitly mentioned\nlocations:\n  - \"[[Location Name]]\"  # Use wiki-link format, only if explicitly mentioned\nthemes:\n  - \"[[Theme]]\"  # Major topics/themes, use wiki-link format\noverview: \"Brief 2-3 sentence summary of the document\x27s content and significance\"\n```\n\nThen provide the transcription in markdown format.\n\nIMPORTANT FOR MULTI-PAGE DOCUMENTS:\n- Insert <!-- page 1 --> at the start of the first page\n- Insert <!-- page 2 --> at the start of the second page, etc.\n- Place the comment on its own line before the page content\n\nRemember:\n- Only include entities EXPLICITLY present in the document\n- Use [[wiki-link]] format for all entities\n- Preserve original text exactly\n- Mark unclear sections as [illegible]\n- Add page break comments for multi-page documents\n- The overview should be concise and factual, not interpretive\n"

/-- The `params` dict of one batch request (batch_pdf_processor_claude.py
lines 164-188).  The constant discriminator strings of the nested messages
structure (role user, type document, type base64, media_type
application/pdf, type text) are fixed in the source and omitted;
`documentData` is the base64 payload of the document block and `promptText`
the text of the text block. -/
structure RequestParams where
  model : List Char
  max_tokens : Nat
  temperature : ℚ
  system : List Char
  documentData : List Char
  promptText : List Char
deriving DecidableEq

/-- One batch request: the custom_id (the file stem) and the params. -/
structure BatchRequest where
  custom_id : List Char
  params : RequestParams
deriving DecidableEq

/-- prepare_batch_requests (batch_pdf_processor_claude.py lines 140-193):
one request per file, with the stem as custom_id, the fixed model and
sampling constants, the base64-encoded file contents, and the analysis
prompt built from the source label parsed out of the path. -/
def prepare_batch_requests (model : List Char) (readFile : PyPath → List Nat)
    (pdf_files : List PyPath) : List BatchRequest :=
  pdf_files.map fun pdf_path =>
    { custom_id := pdf_path.stem
      params :=
        { model := model
          max_tokens := 8192
          temperature := 1 / 10
          system := system_prompt
          documentData := encode_pdf readFile pdf_path
          promptText := create_analysis_prompt pdf_path.toString
            (parse_source_from_path pdf_path) } }

/-- C5: with at least five path segments (expressed by decomposing the parts
list around its last five entries) the source label is built from the
segments at positions -2, -3, -4, -5; with fewer than five segments the
function falls back to the string form of the parent path (the claim's own
example fixes this reading of the fallback). -/
theorem parse_source_from_path_spec (p : PyPath) :
    (∀ pre archive collection box folder file,
        p.parts = pre ++ [archive, collection, box, folder, file] →
        parse_source_from_path p =
          folder ++ str ", " ++ box ++ str ", " ++ collection ++ str ", " ++ archive)
    ∧ (p.parts.length < 5 → parse_source_from_path p = p.parent.toString) := by
  constructor
  · intro pre archive collection box folder file h
    have hlen : ¬ p.parts.length < 5 := by
      rw [h]
      simp only [List.length_append, List.length_cons, List.length_nil]
      omega
    simp only [parse_source_from_path, hlen, if_false, h, List.reverse_append]
    simp [List.getD]
  · intro h
    simp [parse_source_from_path, h]

/-- Witness for C5 at the claim's two concrete examples:
`/root/Archive/Collection/Box1/FolderA/doc.pdf` yields
`FolderA, Box1, Collection, Archive`, and `/doc.pdf` (two segments) yields
the string form of its parent, `/`. -/
theorem parse_source_from_path_spec_witness :
    parse_source_from_path
        ⟨true, [str "root", str "Archive", str "Collection", str "Box1",
                str "FolderA", str "doc.pdf"]⟩
      = str "FolderA, Box1, Collection, Archive"
    ∧ parse_source_from_path ⟨true, [str "doc.pdf"]⟩ = str "/" := by
  constructor
  · have h := (parse_source_from_path_spec
      ⟨true, [str "root", str "Archive", str "Collection", str "Box1",
              str "FolderA", str "doc.pdf"]⟩).1
      [str "/", str "root"] (str "Archive") (str "Collection") (str "Box1")
      (str "FolderA") (str "doc.pdf") (by decide)
    exact h.trans (by decide)
  · have h := (parse_source_from_path_spec ⟨true, [str "doc.pdf"]⟩).2 (by decide)
    exact h.trans (by decide)

/-- C10: an absolute path whose parts tuple has exactly five entries (the
root anchor, three directory names and the file name) does not take the
fallback: the label is produced with the root anchor string `/` in the
archive position. -/
theorem parse_source_from_path_five_parts (a b c file : List Char) :
    parse_source_from_path ⟨true, [a, b, c, file]⟩ =
      c ++ str ", " ++ b ++ str ", " ++ a ++ str ", " ++ str "/" := by
  rfl

lemma processOne_split (yamlLoad : List Char → Except (List Char) Metadata)
    (added : List Char) (st : ProcessOutcome) (r : BatchResult) :
    processOne yamlLoad added st r
      = st.combine (processOne yamlLoad added ⟨0, 0, []⟩ r) := by
  obtain ⟨cid, body⟩ := r
  obtain ⟨s, f, fl⟩ := st
  cases body with
  | succeeded content =>
    cases content <;> simp [processOne, ProcessOutcome.combine]
  | errored a b => simp [processOne, ProcessOutcome.combine]
  | other a => simp [processOne, ProcessOutcome.combine]

lemma combine_assoc (a b c : ProcessOutcome) :
    (a.combine b).combine c = a.combine (b.combine c) := by
  simp [ProcessOutcome.combine, Nat.add_assoc]

lemma combine_zero (a : ProcessOutcome) : a.combine ⟨0, 0, []⟩ = a := by
  obtain ⟨s, f, fl⟩ := a
  simp [ProcessOutcome.combine]

lemma foldl_processOne (yamlLoad : List Char → Except (List Char) Metadata)
    (added : List Char) (rs : List BatchResult) (st : ProcessOutcome) :
    rs.foldl (processOne yamlLoad added) st
      = st.combine (process_batch_results yamlLoad added rs) := by
  induction rs generalizing st with
  | nil => simp [process_batch_results, combine_zero]
  | cons r rs ih =>
    show (rs.foldl _ (processOne yamlLoad added st r)) = _
    rw [ih, processOne_split, combine_assoc]
    congr 1
    show _ = process_batch_results yamlLoad added (r :: rs)
    show _ = rs.foldl _ (processOne yamlLoad added ⟨0, 0, []⟩ r)
    rw [ih]

lemma process_batch_results_cons (yamlLoad : List Char → Except (List Char) Metadata)
    (added : List Char) (r : BatchResult) (rs : List BatchResult) :
    process_batch_results yamlLoad added (r :: rs)
      = (processOne yamlLoad added ⟨0, 0, []⟩ r).combine
          (process_batch_results yamlLoad added rs) := by
  show rs.foldl _ (processOne yamlLoad added ⟨0, 0, []⟩ r) = _
  rw [foldl_processOne]

lemma process_batch_results_append (yamlLoad : List Char → Except (List Char) Metadata)
    (added : List Char) (xs ys : List BatchResult) :
    process_batch_results yamlLoad added (xs ++ ys)
      = (process_batch_results yamlLoad added xs).combine
          (process_batch_results yamlLoad added ys) := by
  have hdef : ∀ rs : List BatchResult,
      process_batch_results yamlLoad added rs
        = rs.foldl (processOne yamlLoad added) ⟨0, 0, []⟩ := fun _ => rfl
  rw [hdef (xs ++ ys), List.foldl_append, foldl_processOne, ← hdef xs]

lemma processOne_counts (yamlLoad : List Char → Except (List Char) Metadata)
    (added : List Char) (r : BatchResult) :
    (processOne yamlLoad added ⟨0, 0, []⟩ r).succeeded
      + (processOne yamlLoad added ⟨0, 0, []⟩ r).failed = 1 := by
  obtain ⟨cid, body⟩ := r
  cases body with
  | succeeded content => cases content <;> simp [processOne]
  | errored a b => simp [processOne]
  | other a => simp [processOne]

/-- C6: the two counters of process_batch_results always sum to the number
of result items (each item increments exactly one of them), and an errored
item contributes no output file while the files of the items before and
after it are still produced. -/
theorem process_batch_results_counts
    (yamlLoad : List Char → Except (List Char) Metadata) (added : List Char)
    (results : List BatchResult) :
    (process_batch_results yamlLoad added results).succeeded
        + (process_batch_results yamlLoad added results).failed = results.length
    ∧ ∀ pre r post et em, results = pre ++ r :: post →
        r.result = ResultBody.errored et em →
        (process_batch_results yamlLoad added results).files =
          (process_batch_results yamlLoad added pre).files
            ++ (process_batch_results yamlLoad added post).files := by
  constructor
  · induction results with
    | nil => rfl
    | cons r rs ih =>
      rw [process_batch_results_cons]
      simp only [ProcessOutcome.combine, List.length_cons]
      have h := processOne_counts yamlLoad added r
      omega
  · intro pre r post et em hsplit herr
    subst hsplit
    rw [process_batch_results_append, process_batch_results_cons]
    obtain ⟨cid, body⟩ := r
    simp only at herr
    subst herr
    simp [ProcessOutcome.combine, processOne]

/-- Witness for C6 on a concrete three-item batch whose middle item errored:
the counters sum to 3 and the files are exactly those of the two succeeded
items. -/
theorem process_batch_results_counts_witness :
    (process_batch_results (fun _ => .error []) (str "October 12, 2025")
        [⟨some (str "a"), .succeeded [.text (str "hello")]⟩,
         ⟨some (str "b"), .errored (str "api_error") (str "boom")⟩,
         ⟨some (str "c"), .succeeded [.text (str "world")]⟩]).succeeded
      + (process_batch_results (fun _ => .error []) (str "October 12, 2025")
        [⟨some (str "a"), .succeeded [.text (str "hello")]⟩,
         ⟨some (str "b"), .errored (str "api_error") (str "boom")⟩,
         ⟨some (str "c"), .succeeded [.text (str "world")]⟩]).failed = 3
    ∧ (process_batch_results (fun _ => .error []) (str "October 12, 2025")
        [⟨some (str "a"), .succeeded [.text (str "hello")]⟩,
         ⟨some (str "b"), .errored (str "api_error") (str "boom")⟩,
         ⟨some (str "c"), .succeeded [.text (str "world")]⟩]).files =
      (process_batch_results (fun _ => .error []) (str "October 12, 2025")
        [⟨some (str "a"), .succeeded [.text (str "hello")]⟩]).files
      ++ (process_batch_results (fun _ => .error []) (str "October 12, 2025")
        [⟨some (str "c"), .succeeded [.text (str "world")]⟩]).files := by
  have h := process_batch_results_counts (fun _ => .error [])
    (str "October 12, 2025")
    [⟨some (str "a"), .succeeded [.text (str "hello")]⟩,
     ⟨some (str "b"), .errored (str "api_error") (str "boom")⟩,
     ⟨some (str "c"), .succeeded [.text (str "world")]⟩]
  exact ⟨h.1, h.2 [⟨some (str "a"), .succeeded [.text (str "hello")]⟩]
    ⟨some (str "b"), .errored (str "api_error") (str "boom")⟩
    [⟨some (str "c"), .succeeded [.text (str "world")]⟩]
    (str "api_error") (str "boom") rfl rfl⟩

/-- C9: a succeeded result whose content list is empty is counted as failed,
produces no output file, and the items before and after it are processed
unchanged. -/
theorem process_batch_results_empty_content
    (yamlLoad : List Char → Except (List Char) Metadata) (added : List Char)
    (pre post : List BatchResult) (cid : Option (List Char)) :
    (process_batch_results yamlLoad added
        (pre ++ ⟨cid, ResultBody.succeeded []⟩ :: post)).succeeded
      = (process_batch_results yamlLoad added pre).succeeded
        + (process_batch_results yamlLoad added post).succeeded
    ∧ (process_batch_results yamlLoad added
        (pre ++ ⟨cid, ResultBody.succeeded []⟩ :: post)).failed
      = (process_batch_results yamlLoad added pre).failed + 1
        + (process_batch_results yamlLoad added post).failed
    ∧ (process_batch_results yamlLoad added
        (pre ++ ⟨cid, ResultBody.succeeded []⟩ :: post)).files
      = (process_batch_results yamlLoad added pre).files
        ++ (process_batch_results yamlLoad added post).files := by
  rw [process_batch_results_append, process_batch_results_cons]
  refine ⟨?_, ?_, ?_⟩ <;> simp [ProcessOutcome.combine, processOne]
  omega

/-- C8: request building is deterministic — the requests depend only on the
paths and the contents read for them, so two runs over the same files with
the same file contents yield identical request units — and every request's
custom_id is the stem (base name without extension) of its file. -/
theorem prepare_batch_requests_deterministic (model : List Char)
    (readFile1 readFile2 : PyPath → List Nat) (pdf_files : List PyPath)
    (h : ∀ p ∈ pdf_files, readFile1 p = readFile2 p) :
    prepare_batch_requests model readFile1 pdf_files
      = prepare_batch_requests model readFile2 pdf_files
    ∧ (prepare_batch_requests model readFile1 pdf_files).map BatchRequest.custom_id
      = pdf_files.map PyPath.stem := by
  constructor
  · induction pdf_files with
    | nil => rfl
    | cons p ps ih =>
      simp only [prepare_batch_requests, List.map_cons] at *
      rw [encode_pdf, encode_pdf, h p (List.mem_cons_self p ps)]
      rw [ih fun q hq => h q (List.mem_cons_of_mem p hq)]
  · simp [prepare_batch_requests, List.map_map, Function.comp]

/-- Witness for C8 on a concrete one-file batch with fixed contents: the
run is reproducible and the custom_id is the stem `doc` of `doc.pdf`. -/
theorem prepare_batch_requests_deterministic_witness :
    prepare_batch_requests (str "claude-sonnet-4-5-20250929")
        (fun _ => [37, 80, 68, 70])
        [⟨true, [str "Archive", str "Collection", str "Box1", str "doc.pdf"]⟩]
      = prepare_batch_requests (str "claude-sonnet-4-5-20250929")
        (fun _ => [37, 80, 68, 70])
        [⟨true, [str "Archive", str "Collection", str "Box1", str "doc.pdf"]⟩]
    ∧ (prepare_batch_requests (str "claude-sonnet-4-5-20250929")
        (fun _ => [37, 80, 68, 70])
        [⟨true, [str "Archive", str "Collection", str "Box1", str "doc.pdf"]⟩]).map
        BatchRequest.custom_id = [str "doc"] := by
  have h := prepare_batch_requests_deterministic
    (str "claude-sonnet-4-5-20250929") (fun _ => [37, 80, 68, 70])
    (fun _ => [37, 80, 68, 70])
    [⟨true, [str "Archive", str "Collection", str "Box1", str "doc.pdf"]⟩]
    (fun _ _ => rfl)
  exact ⟨h.1, h.2.trans (by rfl)⟩

lemma scan_match (p : List Char) (ps : List (List Char)) (l : List Char)
    (ls : List (List Char)) (h : beginsWith p l = true) :
    scanKeys (p :: ps) (l :: ls) = scanKeys ps ls := by
  simp [scanKeys, h]

lemma scan_skip (p : List Char) (ps : List (List Char)) (l : List Char)
    (ls : List (List Char)) (h : beginsWith p l = false) :
    scanKeys (p :: ps) (l :: ls) = scanKeys (p :: ps) ls := by
  simp [scanKeys, h]

lemma scan_skip_all (p : List Char) (ps xs ls : List (List Char))
    (h : ∀ l ∈ xs, beginsWith p l = false) :
    scanKeys (p :: ps) (xs ++ ls) = scanKeys (p :: ps) ls := by
  induction xs with
  | nil => rfl
  | cons a xs ih =>
    rw [List.cons_append, scan_skip p ps a _ (h a (List.mem_cons_self a xs))]
    exact ih fun l hl => h l (List.mem_cons_of_mem a hl)

lemma scan_skip_items (p : List Char) (ps : List (List Char)) (b : Bool)
    (xs ls : List (List Char))
    (h : ∀ e, beginsWith p (str "  - " ++ e) = false) :
    scanKeys (p :: ps)
        ((if b then xs.map (fun x => str "  - " ++ x) else []) ++ ls)
      = scanKeys (p :: ps) ls := by
  cases b
  · simp
  · simp only [if_pos]
    apply scan_skip_all
    intro l hl
    obtain ⟨e, _, rfl⟩ := List.mem_map.mp hl
    exact h e

/-- C2 as stated fails on the code: scanning the emitted header for the
claimed key list (with the plural key `organizations`) fails even on the
empty metadata mapping, because the code emits the singular line
`organization:`. -/
theorem header_keys_claim_counterexample :
    scanKeys claimedHeaderKeys (frontmatter_lines [] (str "October 12, 2025"))
      = false := by
  decide

/-- C2 (amended): for every metadata mapping, the emitted header contains, in
this exact order, lines for the keys title, creator, publication, source,
date, people, organization (singular in the output), locations and themes —
each key line present even when its value is empty — followed by the fixed
tag list and the generation-date line. -/
theorem create_obsidian_document_header_keys (metadata : Metadata)
    (added : List Char) :
    scanKeys emittedHeaderKeys (frontmatter_lines metadata added) = true := by
  simp only [frontmatter_lines, emittedHeaderKeys, List.append_assoc,
    List.cons_append, List.nil_append]
  rw [scan_skip _ _ _ _ (by rfl)]
  rw [scan_match _ _ _ _ (by rfl)]
  rw [scan_match _ _ _ _ (by split <;> rfl)]
  rw [scan_match _ _ _ _ (by split <;> rfl)]
  rw [scan_match _ _ _ _ (by rfl)]
  rw [scan_match _ _ _ _ (by split <;> rfl)]
  rw [scan_match _ _ _ _ (by rfl)]
  rw [scan_skip_items (str "organization:") _ _ _ _ (fun e => rfl)]
  rw [scan_match _ _ _ _ (by rfl)]
  rw [scan_skip_items (str "locations:") _ _ _ _ (fun e => rfl)]
  rw [scan_match _ _ _ _ (by rfl)]
  rw [scan_skip_items (str "themes:") _ _ _ _ (fun e => rfl)]
  rw [scan_match _ _ _ _ (by rfl)]
  rw [scan_skip_items (str "tags:") _ _ _ _ (fun e => rfl)]
  rw [scan_match _ _ _ _ (by rfl)]
  rw [scan_match _ _ _ _ (by rfl)]
  rw [scan_match _ _ _ _ (by rfl)]
  rw [scan_match _ _ _ _ (by rfl)]
  rfl

lemma seq_items (xs : List (List Char)) (f : List Char → List Char) :
    (if (MetaValue.seq xs).truthy then (pyIter (MetaValue.seq xs)).map f else [])
      = xs.map f := by
  cases xs <;> simp [MetaValue.truthy, pyIter]

/-- C7: when the four sequence fields hold lists (the default empty list
when absent), the emitted header shows each bare key line followed by
exactly one indented line per element, in list order — hence zero indented
lines for an empty or absent list.  The scalar lines are existentially
abstracted. -/
theorem create_obsidian_document_sequence_fields (metadata : Metadata)
    (added : List Char) (ps os locs ths : List (List Char))
    (hp : pyGet metadata (str "people") (.seq []) = .seq ps)
    (ho : pyGet metadata (str "organization") (.seq []) = .seq os)
    (hl : pyGet metadata (str "locations") (.seq []) = .seq locs)
    (ht : pyGet metadata (str "themes") (.seq []) = .seq ths) :
    ∃ tL cL puL soL dL : List Char,
      frontmatter_lines metadata added =
        [str "---", tL, cL, puL, soL, dL, str "people:"]
        ++ ps.map (fun x => str "  - " ++ x)
        ++ [str "organization:"] ++ os.map (fun x => str "  - " ++ x)
        ++ [str "locations:"] ++ locs.map (fun x => str "  - " ++ x)
        ++ [str "themes:"] ++ ths.map (fun x => str "  - " ++ x)
        ++ [str "tags:", str "  - to-do", str "  - source/primary",
            str "added: " ++ added, str "---\n"] := by
  refine ⟨str "title: " ++ pyStrV (pyGet metadata (str "title") (MetaValue.s [])),
    if (pyGet metadata (str "creator") (MetaValue.s [])).truthy
      then str "creator: " ++ pyStrV (pyGet metadata (str "creator") (MetaValue.s []))
      else str "creator:",
    if (pyGet metadata (str "publication") (MetaValue.s [])).truthy
      then str "publication: "
        ++ pyStrV (pyGet metadata (str "publication") (MetaValue.s []))
      else str "publication:",
    str "source: " ++ pyStrV (pyGet metadata (str "source") (MetaValue.s [])),
    if (pyGet metadata (str "date") (MetaValue.s [])).truthy
      then str "date: " ++ pyStrV (pyGet metadata (str "date") (MetaValue.s []))
      else str "date:", ?_⟩
  simp only [frontmatter_lines, hp, ho, hl, ht, seq_items, List.append_assoc,
    List.cons_append, List.nil_append]

/-- Witness for C7 at the spec's example: metadata carrying one person
renders a `people:` line followed by exactly one indented element line, and
the other sequence keys render bare with zero indented lines. -/
theorem create_obsidian_document_sequence_fields_witness :
    ∃ tL cL puL soL dL : List Char,
      frontmatter_lines [(str "people", MetaValue.seq [str "[[Jane Doe]]"])]
          (str "October 12, 2025") =
        [str "---", tL, cL, puL, soL, dL, str "people:", str "  - [[Jane Doe]]",
         str "organization:", str "locations:", str "themes:", str "tags:",
         str "  - to-do", str "  - source/primary",
         str "added: October 12, 2025", str "---\n"] := by
  obtain ⟨a, b, c, d, e, h⟩ := create_obsidian_document_sequence_fields
    [(str "people", MetaValue.seq [str "[[Jane Doe]]"])]
    (str "October 12, 2025") [str "[[Jane Doe]]"] [] [] [] rfl rfl rfl rfl
  exact ⟨a, b, c, d, e, h.trans (by rfl)⟩

/-- C1: a response containing the fence-open marker and a later close marker,
whose (stripped) fenced content decodes to a mapping `m`, is split by
`parse_claude_response` into exactly `m` and, as body, exactly the text after
the first close marker with surrounding whitespace stripped; since `pyFind`
returns first occurrences, only the first fenced block is consumed and any
later fences stay inside that body verbatim. -/
theorem parse_claude_response_fenced
    (yl : List Char → Except (List Char) Metadata) (text : List Char)
    (i j : Int) (m : Metadata)
    (hi : pyFind text (str "```yaml") 0 = i) (hine : i ≠ -1)
    (hj : pyFind text (str "```") (i + 7) = j) (hjne : j ≠ -1)
    (hm : yl (pyStrip (pySlice text (i + 7) j)) = .ok m) :
    parse_claude_response yl text = (m, pyStrip (pySliceFrom text (j + 3))) := by
  simp only [parse_claude_response, hi, hj, hm]
  simp [hine, hjne]

/-- Witness for C1 at a concrete response: the fenced block decodes and the
body is the trimmed remainder after the first close marker. -/
theorem parse_claude_response_fenced_witness :
    parse_claude_response (fun _ => .ok [(str "title", MetaValue.s (str "X"))])
        (str "```yaml\ntitle: X\n```\n  The body.  ")
      = ([(str "title", MetaValue.s (str "X"))], str "The body.") :=
  parse_claude_response_fenced _ _ 0 17 _ rfl (by decide) rfl (by decide) rfl

/-- C3 as stated fails on the code: with no fence markers the source returns
the response text unchanged, not trimmed; here an input with surrounding
spaces comes back with the spaces intact. -/
theorem parse_claude_response_fallback_counterexample :
    parse_claude_response (fun _ => .error []) (str "  extra  ")
      ≠ ([], pyStrip (str "  extra  ")) := by
  decide

/-- C3 (amended): when either fence marker is absent, `parse_claude_response`
returns the empty mapping and the entire input text unchanged (no trimming)
as the body, without raising. -/
theorem parse_claude_response_no_fence
    (yl : List Char → Except (List Char) Metadata) (text : List Char)
    (h : pyFind text (str "```yaml") 0 = -1
       ∨ pyFind text (str "```") (pyFind text (str "```yaml") 0 + 7) = -1) :
    parse_claude_response yl text = ([], text) := by
  simp only [parse_claude_response]
  rcases h with h | h <;> simp [h]

/-- Witness for the amended C3 at a concrete marker-free response. -/
theorem parse_claude_response_no_fence_witness :
    parse_claude_response (fun _ => .error []) (str "  extra  ")
      = ([], str "  extra  ") :=
  parse_claude_response_no_fence _ _ (Or.inl (by decide))

/-- C4: when the fenced block is present but its content fails to decode
(the modelled `yaml.safe_load` reports an error), `parse_claude_response`
swallows the decode error, returns the empty mapping, and still returns the
trimmed text after the close marker as the body.  Absence of raising is
modelled by the function being total and returning normally. -/
theorem parse_claude_response_decode_error
    (yl : List Char → Except (List Char) Metadata) (text : List Char)
    (i j : Int) (e : List Char)
    (hi : pyFind text (str "```yaml") 0 = i) (hine : i ≠ -1)
    (hj : pyFind text (str "```") (i + 7) = j) (hjne : j ≠ -1)
    (hm : yl (pyStrip (pySlice text (i + 7) j)) = .error e) :
    parse_claude_response yl text = ([], pyStrip (pySliceFrom text (j + 3))) := by
  simp only [parse_claude_response, hi, hj, hm]
  simp [hine, hjne]

/-- Witness for C4 at a concrete response whose fenced content fails to
decode: empty metadata, body still extracted and trimmed. -/
theorem parse_claude_response_decode_error_witness :
    parse_claude_response (fun _ => .error (str "bad"))
        (str "```yaml\ntitle: X\n```\n  The body.  ")
      = ([], str "The body.") :=
  parse_claude_response_decode_error _ _ 0 17 (str "bad") rfl (by decide) rfl
    (by decide) rfl

end ClaudeTranscribe

